import Mathlib

/-!
Shallow embedding of the authorization and notification subsystem of the
rrhh recruitment application: the SQL schema, the row-level-security
policies, and the notification fan-out triggers found in
`supabase/migrations/*.sql`.

Modelling conventions:
* uuids are modelled as `Nat`;
* timestamps are modelled as seconds since an arbitrary epoch (`Nat`);
* nullable columns are `Option`;
* a table is a `List` of rows inside the `DB` structure;
* the acting identity is `auth.uid()`, a `Nat`; its role is looked up in
  the `profiles` table exactly as the policies do
  (`EXISTS (SELECT 1 FROM profiles WHERE profiles.id = auth.uid() AND profiles.role = 'rrhh')`);
* a data operation is a function `DB -> ... -> Except String DB`: an
  `AFTER` trigger runs in the same transaction as its triggering
  statement, so any error raised while the trigger inserts derived rows
  aborts the whole operation (no plpgsql exception handler exists in the
  source), which the `Except` monad models directly;
* permissive policies for the same operation combine with OR;
* per Postgres semantics, a `FOR ALL` / `FOR INSERT` policy written with
  only a `USING` clause applies that clause as its `WITH CHECK` too, and
  rows that fail a `USING` clause of an UPDATE are silently filtered out
  (zero rows updated) rather than raising an error, while a failing
  `WITH CHECK` or CHECK constraint raises an error.
-/

/-- Row of `profiles`. Only the columns the policies and triggers consult
are carried (`role` is `candidato` or `rrhh`; `nombre`/`apellidos` feed the
message-notification content). -/
structure Profile where
  id : Nat
  role : String
  nombre : String
  apellidos : String
deriving DecidableEq

/-- Row of `job_offers` (migration 20250411125952_pink_tower.sql). `estado`
has CHECK (estado IN ('abierta', 'cerrada')). -/
structure JobOffer where
  id : Nat
  titulo : String
  estado : String
  created_by : Nat
deriving DecidableEq

/-- Row of `applications` (migration 20250411125952_pink_tower.sql).
`estado` has CHECK (estado IN ('pendiente', 'aceptada', 'rechazada')). -/
structure Application where
  id : Nat
  job_offer_id : Option Nat
  user_id : Nat
  estado : String
deriving DecidableEq

/-- Row of `messages` (migration 20250411130836_steep_meadow.sql). -/
structure Message where
  id : Nat
  sender_id : Nat
  receiver_id : Nat
  content : String
  read : Bool
  application_id : Option Nat
deriving DecidableEq

/-- Row of `notifications` (migration `Sistema de notificaciones`).
`type` has CHECK (type IN ('message', 'application_status', 'new_job_offer')). -/
structure Notification where
  user_id : Nat
  type : String
  title : String
  content : String
  read : Bool
  related_id : Option Nat
deriving DecidableEq

/-- Row of `email_notifications` (migration `Add evaluation templates`).
`type` has CHECK (type IN ('process_update', 'assessment_invitation',
'interview_scheduled', 'evaluation_complete')). -/
structure EmailNotification where
  type : String
  recipient_id : Nat
  subject : String
  content : String
deriving DecidableEq

/-- Row of `selection_processes` with the two array columns added by the
`Add evaluation templates` migration. -/
structure SelectionProcess where
  id : Nat
  job_offer_id : Option Nat
  candidate_id : Nat
  status : String
  required_assessments : List Nat
  completed_assessments : List Nat
deriving DecidableEq

/-- Row of `candidate_evaluations`: columns are exactly `id`, `stage_id`,
`evaluator_id`, `score`, `feedback`, `status`, plus `template_id` and
`criteria_scores` added by ALTER TABLE. The table has NO `process_id`
column; the parent process is only reachable through
`stage_id -> process_stages.process_id`. -/
structure CandidateEvaluation where
  id : Nat
  stage_id : Option Nat
  evaluator_id : Option Nat
  score : Option Nat
  feedback : Option String
  status : String
  template_id : Option Nat
deriving DecidableEq

/-- Row of `evaluation_templates`. -/
structure EvaluationTemplate where
  id : Nat
  name : String
  position_type : String
  max_score : Nat
  passing_score : Nat
  created_by : Option Nat
deriving DecidableEq

/-- Row of `evaluation_criteria`; `template_id` is a nullable foreign key
into `evaluation_templates` with ON DELETE CASCADE. -/
structure EvaluationCriterion where
  id : Nat
  template_id : Option Nat
  name : String
  weight : Nat
  order_index : Nat
deriving DecidableEq

/-- Row of `documents` (migration 20250411115229_polished_lagoon.sql).
`expiry_date` is nullable. -/
structure Document where
  id : Nat
  title : String
  type : String
  file_url : String
  status : String
  expiry_date : Option Nat
  user_id : Nat
deriving DecidableEq

/-- The database state: one list per table of the embedded fragment. -/
structure DB where
  profiles : List Profile
  job_offers : List JobOffer
  applications : List Application
  messages : List Message
  notifications : List Notification
  email_notifications : List EmailNotification
  selection_processes : List SelectionProcess
  candidate_evaluations : List CandidateEvaluation
  evaluation_templates : List EvaluationTemplate
  evaluation_criteria : List EvaluationCriterion
  documents : List Document
deriving DecidableEq

/-! ## CHECK constraints -/

/-- CHECK (type IN ('message', 'application_status', 'new_job_offer')) on
`notifications` — the only definition of the table; no migration ever
widens this set. -/
def notification_type_allowed (t : String) : Bool :=
  t == "message" || t == "application_status" || t == "new_job_offer"

/-- CHECK on `email_notifications.type`. -/
def email_notification_type_allowed (t : String) : Bool :=
  t == "process_update" || t == "assessment_invitation" ||
  t == "interview_scheduled" || t == "evaluation_complete"

/-- CHECK (status IN ('pending', 'in_progress', 'completed', 'rejected'))
on `selection_processes`. -/
def selection_process_status_allowed (s : String) : Bool :=
  s == "pending" || s == "in_progress" || s == "completed" || s == "rejected"

/-- CHECK (status IN ('pending', 'passed', 'failed')) on
`candidate_evaluations`. Note `completed` is NOT in the set. -/
def candidate_evaluation_status_allowed (s : String) : Bool :=
  s == "pending" || s == "passed" || s == "failed"

/-- CHECK (estado IN ('pendiente', 'aceptada', 'rechazada')) on
`applications`. -/
def application_estado_allowed (s : String) : Bool :=
  s == "pendiente" || s == "aceptada" || s == "rechazada"

/-- CHECK (type IN ('driver_license', 'emergency_title', 'other_title'))
on `documents`. -/
def document_type_allowed (t : String) : Bool :=
  t == "driver_license" || t == "emergency_title" || t == "other_title"

/-- CHECK (status IN ('pending', 'approved', 'rejected')) on `documents`. -/
def document_status_allowed (s : String) : Bool :=
  s == "pending" || s == "approved" || s == "rejected"

/-! ## Policy predicates -/

/-- The recurring policy subexpression
`EXISTS (SELECT 1 FROM profiles WHERE profiles.id = auth.uid() AND profiles.role = 'rrhh')`. -/
def is_rrhh (profiles : List Profile) (uid : Nat) : Bool :=
  profiles.any (fun p => p.id == uid && p.role == "rrhh")

/-- Policy `RRHH can manage job offers` (FOR ALL, USING rrhh-exists). -/
def policy_rrhh_can_manage_job_offers (db : DB) (uid : Nat) (_o : JobOffer) : Bool :=
  is_rrhh db.profiles uid

/-- Policy `Everyone can view active job offers` (FOR SELECT, USING
estado = 'abierta'). -/
def policy_everyone_can_view_active_job_offers (_uid : Nat) (o : JobOffer) : Bool :=
  o.estado == "abierta"

/-- A `job_offers` row is selectable iff some applicable SELECT policy
evaluates true (permissive policies combine with OR; these are the only
two policies applicable to SELECT on `job_offers`). -/
def can_select_job_offer (db : DB) (uid : Nat) (o : JobOffer) : Bool :=
  policy_rrhh_can_manage_job_offers db uid o ||
  policy_everyone_can_view_active_job_offers uid o

/-- Policy `Users can read their messages` (FOR SELECT). -/
def messages_select_policy (uid : Nat) (m : Message) : Bool :=
  uid == m.sender_id || uid == m.receiver_id

/-- Policy `Users can create messages` (FOR INSERT, WITH CHECK
auth.uid() = sender_id). -/
def messages_insert_policy (uid : Nat) (m : Message) : Bool :=
  uid == m.sender_id

/-- SQL `a IS DISTINCT FROM b` on two non-null booleans: plain
inequality. -/
def is_distinct_from (a b : Bool) : Bool := a != b

/-- USING clause of policy `Users can mark messages as read` (FOR UPDATE,
no WITH CHECK):
`auth.uid() = receiver_id AND (read = true AND read IS DISTINCT FROM messages.read)`.
Inside a row-level policy on `messages` there is no OLD/NEW: both the bare
column reference `read` and the qualified `messages.read` denote the same
attribute of the row being checked, so the last conjunct compares the
column with itself. -/
def messages_update_using (uid : Nat) (m : Message) : Bool :=
  uid == m.receiver_id && (m.read == true && is_distinct_from m.read m.read)

/-- Policy `Users can read their notifications` (FOR SELECT) — the only
SELECT policy on `notifications`. -/
def notifications_select_policy (uid : Nat) (n : Notification) : Bool :=
  n.user_id == uid

/-- USING clause of policy `Users can mark their notifications as read`
(FOR UPDATE). -/
def notifications_update_using (uid : Nat) (n : Notification) : Bool :=
  n.user_id == uid

/-- WITH CHECK clause of policy `Users can mark their notifications as
read`:
`user_id = auth.uid() AND (read = true AND read IS DISTINCT FROM notifications.read)`.
As in the messages policy, `read` and `notifications.read` resolve to the
same attribute of the row being checked. -/
def notifications_update_with_check (uid : Nat) (n : Notification) : Bool :=
  n.user_id == uid && (n.read == true && is_distinct_from n.read n.read)

/-- Policy `Allow trigger-based notification creation` (FOR INSERT, WITH
CHECK rrhh-exists) — the only INSERT policy on `notifications`. -/
def notifications_insert_policy (db : DB) (uid : Nat) (_n : Notification) : Bool :=
  is_rrhh db.profiles uid

/-- Policy `RRHH can view all email notifications`: despite its name it
carries no FOR clause, hence FOR ALL with USING rrhh-exists, which also
serves as its WITH CHECK; it is the only policy authorizing INSERT on
`email_notifications`. -/
def email_notifications_insert_policy (db : DB) (uid : Nat) (_e : EmailNotification) : Bool :=
  is_rrhh db.profiles uid

/-- Policy `Users can create applications` (FOR INSERT, WITH CHECK
user_id = auth.uid()). -/
def policy_users_can_create_applications (uid : Nat) (a : Application) : Bool :=
  a.user_id == uid

/-- Policy `RRHH can manage applications` (FOR ALL, USING rrhh-exists; the
missing WITH CHECK defaults to the USING clause, so it also authorizes
INSERT of arbitrary rows by rrhh identities). -/
def policy_rrhh_can_manage_applications (db : DB) (uid : Nat) : Bool :=
  is_rrhh db.profiles uid

/-- An `applications` INSERT is authorized iff one of the two policies
covering INSERT accepts the new row. -/
def applications_insert_allowed (db : DB) (uid : Nat) (a : Application) : Bool :=
  policy_users_can_create_applications uid a || policy_rrhh_can_manage_applications db uid

/-- Policy `RRHH can manage selection processes` (FOR ALL, USING and WITH
CHECK rrhh-exists); the only policy authorizing UPDATE on
`selection_processes`. -/
def policy_rrhh_can_manage_selection_processes (db : DB) (uid : Nat) : Bool :=
  is_rrhh db.profiles uid

/-- Policy `RRHH can manage evaluations` (FOR ALL, USING and WITH CHECK
rrhh-exists); the only policy authorizing UPDATE on
`candidate_evaluations`. -/
def policy_rrhh_can_manage_evaluations (db : DB) (uid : Nat) : Bool :=
  is_rrhh db.profiles uid

/-- Policy `Users can manage their own documents` (FOR ALL, USING and WITH
CHECK user_id = auth.uid()); the only policy authorizing INSERT on
`documents`. -/
def policy_users_can_manage_their_own_documents (uid : Nat) (d : Document) : Bool :=
  d.user_id == uid

/-! ## Generic row insertion with RLS and CHECK enforcement -/

/-- Insert into `notifications` as acting identity `uid`: Postgres raises
if no INSERT policy accepts the row, or if the new row violates the
`type` CHECK constraint. The trigger functions are not SECURITY DEFINER,
so their inserts are checked against the invoking identity. -/
def insert_notification (db : DB) (uid : Nat) (n : Notification) : Except String DB :=
  if notifications_insert_policy db uid n then
    if notification_type_allowed n.type then
      .ok { db with notifications := db.notifications ++ [n] }
    else
      .error "new row for relation notifications violates check constraint notifications_type_check"
  else
    .error "new row violates row-level security policy for table notifications"

/-- Insert into `email_notifications` as acting identity `uid`. -/
def insert_email_notification (db : DB) (uid : Nat) (e : EmailNotification) : Except String DB :=
  if email_notifications_insert_policy db uid e then
    if email_notification_type_allowed e.type then
      .ok { db with email_notifications := db.email_notifications ++ [e] }
    else
      .error "new row for relation email_notifications violates check constraint email_notifications_type_check"
  else
    .error "new row violates row-level security policy for table email_notifications"

/-! ## Trigger functions -/

/-- Trigger function `create_message_notification` (AFTER INSERT ON
messages): the row it inserts into `notifications`. The content subquery
`SELECT 'Mensaje de ' || nombre || ' ' || apellidos FROM profiles WHERE id = NEW.sender_id`
yields no value when the sender has no profile row, hence `Option`. -/
def create_message_notification (profiles : List Profile) (new : Message) : Option Notification :=
  (profiles.find? (fun p => p.id == new.sender_id)).map (fun p =>
    { user_id := new.receiver_id
      type := "message"
      title := "Nuevo mensaje"
      content := "Mensaje de " ++ p.nombre ++ " " ++ p.apellidos
      read := false
      related_id := new.application_id })

/-- Trigger function `create_application_notification` (AFTER UPDATE ON
applications): the notifications rows it inserts, given OLD and NEW. -/
def create_application_notification (old new : Application) : List Notification :=
  if new.estado != old.estado then
    [ { user_id := new.user_id
        type := "application_status"
        title := "Estado de postulación actualizado"
        content := "Tu postulación ha sido " ++ new.estado
        read := false
        related_id := new.job_offer_id } ]
  else []

/-- In-app notification row built by trigger function
`create_process_update_notification` (AFTER UPDATE OF status ON
selection_processes). -/
def process_update_notification_row (new : SelectionProcess) : Notification :=
  { user_id := new.candidate_id
    type := "process_update"
    title := "Actualización del proceso de selección"
    content :=
      if new.status == "in_progress" then "Tu proceso de selección ha comenzado"
      else if new.status == "completed" then "Tu proceso de selección ha finalizado"
      else if new.status == "rejected" then "Lo sentimos, tu proceso de selección ha sido rechazado"
      else "Tu proceso de selección ha sido actualizado"
    read := false
    related_id := some new.id }

/-- Email row built by the same trigger function. -/
def process_update_email_row (new : SelectionProcess) : EmailNotification :=
  { type := "process_update"
    recipient_id := new.candidate_id
    subject :=
      if new.status == "in_progress" then "Proceso de selección iniciado"
      else if new.status == "completed" then "Proceso de selección completado"
      else if new.status == "rejected" then "Actualización sobre tu postulación"
      else "Actualización del proceso de selección"
    content :=
      if new.status == "in_progress" then
        "Tu proceso de selección ha comenzado. Por favor, mantente atento a las próximas etapas."
      else if new.status == "completed" then
        "Felicitaciones! Tu proceso de selección ha finalizado exitosamente."
      else if new.status == "rejected" then
        "Lamentamos informarte que no continuaremos con tu proceso de selección. Te agradecemos tu interés y te deseamos éxito en tu búsqueda laboral."
      else
        "Ha habido una actualización en tu proceso de selección. Por favor, ingresa a la plataforma para más detalles." }

/-- Trigger function `create_assessment_invitation` (AFTER UPDATE OF
required_assessments ON selection_processes): the email rows it inserts.
`IS DISTINCT FROM` on the two non-null array values is plain inequality,
and the `WHERE NEW.required_assessments <> '\x7b\x7d'` clause keeps the row
only when the new array is non-empty. -/
def create_assessment_invitation (old new : SelectionProcess) : List EmailNotification :=
  if new.required_assessments ≠ old.required_assessments then
    if new.required_assessments ≠ [] then
      [ { type := "assessment_invitation"
          recipient_id := new.candidate_id
          subject := "Evaluación de habilidades pendiente"
          content := "Se te ha asignado una nueva evaluación de habilidades. Por favor, ingresa a la plataforma para completarla." } ]
    else []
  else []

/-- Runtime resolution of a uuid-valued field of the plpgsql `NEW` record
for a `candidate_evaluations` row: exactly the uuid columns present in the
table DDL (`id`, `stage_id`, `evaluator_id`, plus `template_id` added by
ALTER TABLE) resolve; any other name raises
`record "new" has no field ...`, as plpgsql does when the referenced
column does not exist. -/
def ce_new_uuid_field (e : CandidateEvaluation) (col : String) : Except String (Option Nat) :=
  if col == "id" then .ok (some e.id)
  else if col == "stage_id" then .ok e.stage_id
  else if col == "evaluator_id" then .ok e.evaluator_id
  else if col == "template_id" then .ok e.template_id
  else .error ("record new has no field " ++ col)

/-- Trigger function `notify_evaluation_complete` (AFTER UPDATE OF status
ON candidate_evaluations): when `NEW.status = 'completed'` it selects the
parent process by `sp.id = NEW.process_id` and builds one email per match;
the field reference `NEW.process_id` is resolved at runtime against the
columns of `candidate_evaluations`. -/
def notify_evaluation_complete (db : DB) (new : CandidateEvaluation) : Except String (List EmailNotification) :=
  if new.status == "completed" then
    (ce_new_uuid_field new "process_id").map (fun pid =>
      (db.selection_processes.filter (fun sp => pid == some sp.id)).map (fun sp =>
        { type := "evaluation_complete"
          recipient_id := sp.candidate_id
          subject := "Evaluación completada"
          content := "Una evaluación de tu proceso de selección ha sido completada. Por favor, ingresa a la plataforma para ver los resultados." }))
  else .ok []

/-- Seconds in a day; `interval '30 days'` is `30 * seconds_per_day`. -/
def seconds_per_day : Nat := 86400

/-- Date rendering used in notification bodies (`to_char(.., 'DD/MM/YYYY')`);
the claims never depend on the exact text, only on which rows exist. -/
def format_date (t : Nat) : String := toString t

/-- Trigger function `notify_document_expiry` (AFTER INSERT OR UPDATE ON
documents): the notification row it inserts when
`NEW.expiry_date IS NOT NULL AND NEW.expiry_date > now() AND NEW.expiry_date <= now() + interval '30 days'`. -/
def notify_document_expiry_row (now : Nat) (new : Document) : Option Notification :=
  match new.expiry_date with
  | none => none
  | some e =>
    if now < e && e ≤ now + 30 * seconds_per_day then
      some { user_id := new.user_id
             type := "document_expiry"
             title := "Documento por vencer"
             content := "El documento \"" ++ new.title ++ "\" vencerá el " ++ format_date e
             read := false
             related_id := some new.id }
    else none

/-! ## Data operations (statement + same-transaction AFTER triggers) -/

/-- INSERT a message as identity `uid`: RLS WITH CHECK of
`Users can create messages`, then the row insertion, then the AFTER
trigger `message_notification_trigger`, whose `notifications` insert is
checked against the same identity; a NULL content (missing sender
profile) would violate the NOT NULL constraint on
`notifications.content`. Any raised error aborts the whole transaction,
including the already-applied message insertion. -/
def insert_message (db : DB) (uid : Nat) (m : Message) : Except String DB :=
  if messages_insert_policy uid m then
    let db1 : DB := { db with messages := db.messages ++ [m] }
    match create_message_notification db1.profiles m with
    | some n => insert_notification db1 uid n
    | none => .error "null value in column content of relation notifications violates not-null constraint"
  else
    .error "new row violates row-level security policy for table messages"

/-- INSERT an application as identity `uid`: RLS (the OR of the two
policies covering INSERT), then the foreign-key check on `job_offer_id`.
No trigger fires on INSERT of applications
(`application_notification_trigger` is AFTER UPDATE only). -/
def insert_application (db : DB) (uid : Nat) (a : Application) : Except String DB :=
  if applications_insert_allowed db uid a then
    match a.job_offer_id with
    | none => .ok { db with applications := db.applications ++ [a] }
    | some j =>
      if db.job_offers.any (fun o => o.id == j) then
        .ok { db with applications := db.applications ++ [a] }
      else
        .error "insert on table applications violates foreign key constraint applications_job_offer_id_fkey"
  else
    .error "new row violates row-level security policy for table applications"

/-- INSERT a document as identity `uid` at time `now`: RLS, CHECK
constraints, the row insertion, then the AFTER trigger
`document_expiry_notification` (its `notifications` insert checked
against the same identity). -/
def insert_document (now : Nat) (db : DB) (uid : Nat) (d : Document) : Except String DB :=
  if policy_users_can_manage_their_own_documents uid d then
    if document_type_allowed d.type && document_status_allowed d.status then
      let db1 : DB := { db with documents := db.documents ++ [d] }
      match notify_document_expiry_row now d with
      | some n => insert_notification db1 uid n
      | none => .ok db1
    else
      .error "new row for relation documents violates check constraint"
  else
    .error "new row violates row-level security policy for table documents"

/-- UPDATE `selection_processes.status` for the row with id `pid` as
identity `uid`: a row invisible under the USING clause is simply not
updated (zero-row update, no error); otherwise the status CHECK is
enforced, the row replaced, and the AFTER trigger
`process_update_notification_trigger` inserts one `notifications` row and
one `email_notifications` row, each subject to RLS and CHECK. -/
def update_selection_process_status (db : DB) (uid : Nat) (pid : Nat) (newStatus : String) : Except String DB :=
  match db.selection_processes.find? (fun sp => sp.id == pid) with
  | none => .ok db
  | some sp =>
    if policy_rrhh_can_manage_selection_processes db uid then
      if selection_process_status_allowed newStatus then
        let sp2 : SelectionProcess := { sp with status := newStatus }
        let db1 : DB := { db with
          selection_processes := db.selection_processes.map (fun r => if r.id == pid then sp2 else r) }
        do
          let db2 ← insert_notification db1 uid (process_update_notification_row sp2)
          insert_email_notification db2 uid (process_update_email_row sp2)
      else
        .error "new row for relation selection_processes violates check constraint selection_processes_status_check"
    else .ok db

/-- UPDATE `candidate_evaluations.status` for the row with id `eid` as
identity `uid`: USING filter, status CHECK, row replacement, then the
AFTER trigger `evaluation_complete_notification_trigger`. -/
def update_candidate_evaluation_status (db : DB) (uid : Nat) (eid : Nat) (newStatus : String) : Except String DB :=
  match db.candidate_evaluations.find? (fun e => e.id == eid) with
  | none => .ok db
  | some e =>
    if policy_rrhh_can_manage_evaluations db uid then
      if candidate_evaluation_status_allowed newStatus then
        let e2 : CandidateEvaluation := { e with status := newStatus }
        let db1 : DB := { db with
          candidate_evaluations := db.candidate_evaluations.map (fun r => if r.id == eid then e2 else r) }
        do
          let emails ← notify_evaluation_complete db1 e2
          emails.foldlM (fun d em => insert_email_notification d uid em) db1
      else
        .error "new row for relation candidate_evaluations violates check constraint candidate_evaluations_status_check"
    else .ok db

/-- UPDATE `applications.estado` for the row with id `aid` as identity
`uid`: only `RRHH can manage applications` authorizes UPDATE (its USING
filters rows), then the estado CHECK, the row replacement, and the AFTER
trigger `application_notification_trigger`. -/
def update_application_estado (db : DB) (uid : Nat) (aid : Nat) (newEstado : String) : Except String DB :=
  match db.applications.find? (fun a => a.id == aid) with
  | none => .ok db
  | some a =>
    if policy_rrhh_can_manage_applications db uid then
      if application_estado_allowed newEstado then
        let a2 : Application := { a with estado := newEstado }
        let db1 : DB := { db with
          applications := db.applications.map (fun r => if r.id == aid then a2 else r) }
        (create_application_notification a a2).foldlM (fun d n => insert_notification d uid n) db1
      else
        .error "new row for relation applications violates check constraint applications_estado_check"
    else .ok db

/-- DELETE an `evaluation_templates` row: ON DELETE CASCADE on
`evaluation_criteria.template_id` removes exactly the criteria whose
`template_id` references the deleted template. -/
def delete_evaluation_template (db : DB) (tid : Nat) : DB :=
  { db with
    evaluation_templates := db.evaluation_templates.filter (fun t => t.id != tid)
    evaluation_criteria := db.evaluation_criteria.filter (fun c => c.template_id != some tid) }

/-- True exactly on the error results of an operation. -/
def isErr (r : Except String DB) : Bool :=
  match r with
  | .error _ => true
  | .ok _ => false

/-! ## Concrete base state for witnesses -/

/-- Empty database, the base point for concrete witnesses. -/
def db0 : DB :=
  { profiles := [], job_offers := [], applications := [], messages := []
    notifications := [], email_notifications := [], selection_processes := []
    candidate_evaluations := [], evaluation_templates := [], evaluation_criteria := []
    documents := [] }

/-! ## Claims -/

/-- C1: for every identity `i` whose role is `candidato` and every
`job_offers` row `o` with `estado = 'cerrada'` not created by `i`, no
applicable SELECT policy on `job_offers` evaluates true for `(i, o)`, so
a select returns no row. -/
theorem candidate_cannot_select_closed_job_offer (db : DB) (i : Nat) (o : JobOffer)
    (hrole : ∀ p ∈ db.profiles, p.id = i → p.role = "candidato")
    (hclosed : o.estado = "cerrada") (hother : o.created_by ≠ i) :
    can_select_job_offer db i o = false := by
  unfold can_select_job_offer policy_rrhh_can_manage_job_offers
    policy_everyone_can_view_active_job_offers is_rrhh
  rw [Bool.or_eq_false_iff]
  constructor
  · rw [List.any_eq_false]
    intro p hp
    simp only [Bool.and_eq_true, beq_iff_eq, not_and]
    intro hid hrr
    have := hrole p hp hid
    rw [this] at hrr
    exact absurd hrr (by decide)
  · rw [hclosed]
    decide

/-- Witness for C1 at a concrete candidate, profile table and closed
offer. -/
theorem candidate_cannot_select_closed_job_offer_witness :
    can_select_job_offer { db0 with profiles := [⟨1, "candidato", "Ana", "Diaz"⟩] } 1
      ⟨7, "Oferta", "cerrada", 2⟩ = false :=
  candidate_cannot_select_closed_job_offer _ 1 _ (by decide) rfl (by decide)

/-- C2: the spec says the receiver of a message (and the owner of a
notification) can transition its `read` flag from false to true. In the
code, the USING clause of `Users can mark messages as read` and the WITH
CHECK clause of `Users can mark their notifications as read` both contain
`read = true AND read IS DISTINCT FROM <table>.read`, a self-comparison
that is identically false, so the policies authorize no update at all:
not even the receiver marking an unread message read. This theorem
evaluates both predicates to false on every identity and every row. -/
theorem read_update_policies_never_authorize :
    (∀ uid m, messages_update_using uid m = false) ∧
    (∀ uid n, notifications_update_with_check uid n = false) := by
  constructor <;> intro uid r <;>
    simp [messages_update_using, notifications_update_with_check, is_distinct_from]

/-- C6: updating `selection_processes.required_assessments` from `[]` to
`[a1]` makes the `create_assessment_invitation` trigger emit exactly one
email row (addressed to the candidate); from `[a1]` to `[a1, a2]` exactly
one more; from `[a1]` back to `[]` none. -/
theorem assessment_invitation_fanout_counts (sp : SelectionProcess) (a1 a2 : Nat) :
    (create_assessment_invitation { sp with required_assessments := [] }
      { sp with required_assessments := [a1] }).length = 1 ∧
    (create_assessment_invitation { sp with required_assessments := [a1] }
      { sp with required_assessments := [a1, a2] }).length = 1 ∧
    (create_assessment_invitation { sp with required_assessments := [a1] }
      { sp with required_assessments := [] }).length = 0 ∧
    ∀ r ∈ create_assessment_invitation { sp with required_assessments := [] }
      { sp with required_assessments := [a1] }, r.recipient_id = sp.candidate_id := by
  refine ⟨?_, ?_, ?_, ?_⟩ <;> simp [create_assessment_invitation]

/-- C9: deleting an `evaluation_templates` row cascades to exactly the
`evaluation_criteria` rows referencing it: a criterion survives the
delete iff it was there before and its `template_id` is not the deleted
template's id. -/
theorem template_delete_cascades_criteria (db : DB) (tid : Nat) (c : EvaluationCriterion) :
    c ∈ (delete_evaluation_template db tid).evaluation_criteria ↔
      c ∈ db.evaluation_criteria ∧ c.template_id ≠ some tid := by
  simp [delete_evaluation_template, List.mem_filter]

/-- C4 counterexample: the claim says that when appending the derived
notification fails (here: a candidate identity does not satisfy the only
INSERT policy on `notifications`), the primary mutation still commits.
At this concrete input — candidate 1 sends a message to identity 2 — the
trigger's notification insert is denied by RLS and the whole message
insert is rejected with it. -/
theorem message_insert_by_candidate_rejected :
    insert_message { db0 with profiles := [⟨1, "candidato", "Ana", "Diaz"⟩, ⟨2, "rrhh", "Eva", "Ruiz"⟩] } 1
      ⟨10, 1, 2, "hola", false, none⟩ =
    .error "new row violates row-level security policy for table notifications" := by
  rfl

/-- C4 (amended): fan-out is not best-effort: the AFTER trigger runs in
the same transaction with no exception handler, so when the acting
identity is not rrhh — and hence the trigger's `notifications` insert
fails the only INSERT policy on that table — the triggering message
insert itself errors instead of committing. -/
theorem fanout_failure_aborts_triggering_write (db : DB) (uid : Nat) (m : Message)
    (h : is_rrhh db.profiles uid = false) :
    isErr (insert_message db uid m) = true := by
  unfold insert_message
  split
  · simp only []
    split
    · simp [insert_notification, notifications_insert_policy, h, isErr]
    · simp [isErr]
  · simp [isErr]

/-- Witness for the amended C4 theorem at a concrete candidate sender. -/
theorem fanout_failure_aborts_triggering_write_witness :
    isErr (insert_message { db0 with profiles := [⟨1, "candidato", "Ana", "Diaz"⟩] } 1
      ⟨11, 1, 2, "buenas", false, none⟩) = true :=
  fanout_failure_aborts_triggering_write _ 1 _ (by decide)

/-- C10 counterexample: the claim says every authenticated identity may
insert an `applications` row only with `user_id` equal to its own id; but
`RRHH can manage applications` is FOR ALL with only a USING clause, which
doubles as its WITH CHECK, so an rrhh identity (2) may insert a row whose
`user_id` is someone else (1). -/
theorem rrhh_can_insert_application_for_other_user :
    applications_insert_allowed { db0 with profiles := [⟨2, "rrhh", "Eva", "Ruiz"⟩] } 2
      ⟨1, some 7, 1, "pendiente"⟩ = true ∧ (1 : Nat) ≠ 2 := by
  constructor
  · decide
  · decide

/-- C10 (amended): an authenticated identity that is not rrhh may insert
an `applications` row exactly when `user_id` is its own id; and no INSERT
policy constrains the referenced job offer, so an insert referencing an
offer with `estado = 'cerrada'` succeeds. -/
theorem application_insert_policy_amended :
    (∀ (db : DB) (uid : Nat) (a : Application), is_rrhh db.profiles uid = false →
      (applications_insert_allowed db uid a = true ↔ a.user_id = uid)) ∧
    (∀ (db : DB) (uid : Nat) (a : Application) (o : JobOffer),
      o ∈ db.job_offers → a.job_offer_id = some o.id → o.estado = "cerrada" →
      a.user_id = uid →
      insert_application db uid a = .ok { db with applications := db.applications ++ [a] }) := by
  constructor
  · intro db uid a h
    unfold applications_insert_allowed policy_users_can_create_applications
      policy_rrhh_can_manage_applications
    rw [h]
    simp
  · intro db uid a o ho hj _hc hu
    unfold insert_application applications_insert_allowed
      policy_users_can_create_applications policy_rrhh_can_manage_applications
    rw [hu, hj]
    simp only [beq_self_eq_true, Bool.true_or, if_true]
    have hany : db.job_offers.any (fun o2 => o2.id == o.id) = true :=
      List.any_eq_true.mpr ⟨o, ho, by simp⟩
    rw [hany]
    simp

/-- Witness for the amended C10 theorem: a concrete candidate inserting
their own application into a closed offer succeeds, and the policy
characterization holds at the same identity. -/
theorem application_insert_policy_amended_witness :
    (applications_insert_allowed { db0 with job_offers := [⟨7, "Oferta", "cerrada", 2⟩] } 1
      ⟨1, some 7, 1, "pendiente"⟩ = true ↔ (1 : Nat) = 1) ∧
    insert_application { db0 with job_offers := [⟨7, "Oferta", "cerrada", 2⟩] } 1
      ⟨1, some 7, 1, "pendiente"⟩ =
      .ok { { db0 with job_offers := [⟨7, "Oferta", "cerrada", 2⟩] } with
            applications := { db0 with job_offers := [⟨7, "Oferta", "cerrada", 2⟩] }.applications ++ [⟨1, some 7, 1, "pendiente"⟩] } :=
  ⟨application_insert_policy_amended.1 _ 1 _ (by decide),
   application_insert_policy_amended.2 _ 1 _ ⟨7, "Oferta", "cerrada", 2⟩ (by decide) rfl rfl rfl⟩

/-- C3: the claim says an update of `selection_processes.status` from
`pending` to `in_progress` commits one `notifications` row and one
`email_notifications` row for the candidate. In the code the trigger
inserts a notification of type `process_update`, which the `type` CHECK
constraint on `notifications` (allowing only `message`,
`application_status`, `new_job_offer`) rejects; the AFTER trigger runs in
the same transaction, so the whole update errors and no row of any kind
is committed. -/
theorem process_status_update_aborts_on_notification_check (db : DB) (uid pid : Nat)
    (sp : SelectionProcess)
    (hfind : db.selection_processes.find? (fun r => r.id == pid) = some sp)
    (hpend : sp.status = "pending")
    (hrrhh : is_rrhh db.profiles uid = true) :
    update_selection_process_status db uid pid "in_progress" =
      .error "new row for relation notifications violates check constraint notifications_type_check" := by
  unfold update_selection_process_status
  rw [hfind]
  simp only [policy_rrhh_can_manage_selection_processes, hrrhh, if_true]
  rw [show selection_process_status_allowed "in_progress" = true from rfl]
  simp only [if_true]
  unfold insert_notification notifications_insert_policy
  simp only [hrrhh, if_true]
  rw [show notification_type_allowed (process_update_notification_row
    { sp with status := "in_progress" }).type = false from rfl]
  rfl

/-- Witness for C3 at a concrete rrhh identity and pending process. -/
theorem process_status_update_aborts_on_notification_check_witness :
    update_selection_process_status
      { db0 with profiles := [⟨2, "rrhh", "Eva", "Ruiz"⟩]
                 selection_processes := [⟨5, none, 1, "pending", [], []⟩] } 2 5 "in_progress" =
      .error "new row for relation notifications violates check constraint notifications_type_check" :=
  process_status_update_aborts_on_notification_check _ 2 5 _ rfl rfl (by decide)

/-- C5: the claim says setting a `candidate_evaluations` row's status to
`completed` appends one email to the parent process's candidate and the
update succeeds. In the code the status CHECK on `candidate_evaluations`
only allows `pending`, `passed`, `failed`, so the update itself is
rejected; and even on its own the `notify_evaluation_complete` trigger
body reads `NEW.process_id`, a column `candidate_evaluations` does not
have, so it raises instead of emitting the email. -/
theorem evaluation_completed_update_is_rejected (db : DB) (uid eid : Nat)
    (e : CandidateEvaluation)
    (hfind : db.candidate_evaluations.find? (fun r => r.id == eid) = some e)
    (hrrhh : is_rrhh db.profiles uid = true) :
    update_candidate_evaluation_status db uid eid "completed" =
      .error "new row for relation candidate_evaluations violates check constraint candidate_evaluations_status_check" ∧
    ∀ (db2 : DB) (e2 : CandidateEvaluation), e2.status = "completed" →
      notify_evaluation_complete db2 e2 = .error "record new has no field process_id" := by
  constructor
  · unfold update_candidate_evaluation_status
    rw [hfind]
    simp only [policy_rrhh_can_manage_evaluations, hrrhh, if_true]
    rw [show candidate_evaluation_status_allowed "completed" = false from rfl]
    simp
  · intro db2 e2 h2
    unfold notify_evaluation_complete
    rw [h2]
    rw [show ce_new_uuid_field e2 "process_id" =
      Except.error "record new has no field process_id" from rfl]
    rfl

/-- Witness for C5 at a concrete rrhh identity and evaluation row. -/
theorem evaluation_completed_update_is_rejected_witness :
    update_candidate_evaluation_status
      { db0 with profiles := [⟨2, "rrhh", "Eva", "Ruiz"⟩]
                 candidate_evaluations := [⟨4, some 9, some 2, none, none, "pending", none⟩] } 2 4 "completed" =
      .error "new row for relation candidate_evaluations violates check constraint candidate_evaluations_status_check" ∧
    ∀ (db2 : DB) (e2 : CandidateEvaluation), e2.status = "completed" →
      notify_evaluation_complete db2 e2 = .error "record new has no field process_id" :=
  evaluation_completed_update_is_rejected _ 2 4 _ rfl (by decide)

/-- Notification row the `create_application_notification` trigger emits
for an application whose estado becomes `aceptada`. -/
def application_accepted_notification (a : Application) : Notification :=
  { user_id := a.user_id
    type := "application_status"
    title := "Estado de postulación actualizado"
    content := "Tu postulación ha sido aceptada"
    read := false
    related_id := a.job_offer_id }

/-- C7: an rrhh identity updating an application's estado from
`pendiente` to `aceptada` commits exactly one new `notifications` row;
that row is addressed to the application's `user_id`, its content ends
with the literal new status `aceptada`, and the only SELECT policy on
`notifications` accepts it precisely for the identity equal to that
`user_id`. -/
theorem hr_accept_application_notifies_applicant (db : DB) (uid aid : Nat) (a : Application)
    (hfind : db.applications.find? (fun r => r.id == aid) = some a)
    (hpend : a.estado = "pendiente")
    (hrrhh : is_rrhh db.profiles uid = true) :
    update_application_estado db uid aid "aceptada" =
      .ok { db with
            applications := db.applications.map (fun r => if r.id == aid then { a with estado := "aceptada" } else r)
            notifications := db.notifications ++ [application_accepted_notification a] } ∧
    (application_accepted_notification a).user_id = a.user_id ∧
    (∃ pre, (application_accepted_notification a).content = pre ++ "aceptada") ∧
    ∀ v, notifications_select_policy v (application_accepted_notification a) = true ↔ v = a.user_id := by
  refine ⟨?_, rfl, ⟨"Tu postulación ha sido ", rfl⟩, ?_⟩
  · unfold update_application_estado
    rw [hfind]
    simp only [policy_rrhh_can_manage_applications, hrrhh, if_true]
    rw [show application_estado_allowed "aceptada" = true from rfl]
    simp only [if_true]
    unfold create_application_notification
    rw [hpend]
    rw [show (("aceptada" : String) != "pendiente") = true from rfl]
    simp only [if_true, List.foldlM]
    unfold insert_notification notifications_insert_policy
    simp only [hrrhh, if_true]
    rw [show notification_type_allowed
      (Notification.mk a.user_id "application_status" "Estado de postulación actualizado"
        ("Tu postulación ha sido " ++ "aceptada") false a.job_offer_id).type = true from rfl]
    simp only [if_true]
    unfold application_accepted_notification
    rfl
  · intro v
    unfold notifications_select_policy application_accepted_notification
    simp only [beq_iff_eq]
    exact eq_comm

/-- Concrete database for the C7 witness: one rrhh profile and one
pending application. -/
def c7db : DB :=
  { db0 with profiles := [⟨2, "rrhh", "Eva", "Ruiz"⟩], applications := [⟨3, some 7, 1, "pendiente"⟩] }

/-- Witness for C7 at a concrete rrhh actor and pending application. -/
theorem hr_accept_application_notifies_applicant_witness :
    update_application_estado c7db 2 3 "aceptada" =
      .ok { c7db with
            applications := c7db.applications.map (fun r => if r.id == 3 then ⟨3, some 7, 1, "aceptada"⟩ else r)
            notifications := c7db.notifications ++ [application_accepted_notification ⟨3, some 7, 1, "pendiente"⟩] } ∧
    (application_accepted_notification (⟨3, some 7, 1, "pendiente"⟩ : Application)).user_id = 1 ∧
    (∃ pre, (application_accepted_notification (⟨3, some 7, 1, "pendiente"⟩ : Application)).content = pre ++ "aceptada") ∧
    (∀ v, notifications_select_policy v (application_accepted_notification ⟨3, some 7, 1, "pendiente"⟩) = true ↔ v = 1) :=
  hr_accept_application_notifies_applicant c7db 2 3 ⟨3, some 7, 1, "pendiente"⟩ rfl rfl (by decide)

/-- Helper: an `insert_notification` whose row fails the `type` CHECK
constraint errors for every database state and acting identity. -/
theorem insert_notification_err_of_bad_type (db : DB) (uid : Nat) (n : Notification)
    (h : notification_type_allowed n.type = false) :
    isErr (insert_notification db uid n) = true := by
  unfold insert_notification
  split
  · rw [h]
    simp [isErr]
  · simp [isErr]

/-- C8: the claim says a document inserted with `expiry_date` ten days
out gets exactly one `document_expiry` notification, while forty days out
or null get none. In the code the forty-day and null cases indeed create
nothing and the insert commits; but in the ten-day case the trigger
inserts a notification of type `document_expiry`, which the `type` CHECK
on `notifications` rejects (and whose INSERT policy a candidate owner
fails anyway), so the document insert itself errors instead of
committing one notification. -/
theorem document_expiry_trigger_behavior (now : Nat) (db : DB) (uid : Nat) (d : Document)
    (howner : d.user_id = uid)
    (htype : document_type_allowed d.type = true)
    (hstatus : document_status_allowed d.status = true) :
    (d.expiry_date = some (now + 10 * seconds_per_day) →
      isErr (insert_document now db uid d) = true) ∧
    (d.expiry_date = some (now + 40 * seconds_per_day) →
      insert_document now db uid d = .ok { db with documents := db.documents ++ [d] }) ∧
    (d.expiry_date = none →
      insert_document now db uid d = .ok { db with documents := db.documents ++ [d] }) := by
  refine ⟨?_, ?_, ?_⟩ <;> intro hexp
  · have hcond : (decide (now < now + 10 * seconds_per_day) &&
        decide (now + 10 * seconds_per_day ≤ now + 30 * seconds_per_day)) = true := by
      simp only [seconds_per_day, Bool.and_eq_true, decide_eq_true_eq]
      omega
    have hrow : notify_document_expiry_row now d =
        some { user_id := d.user_id, type := "document_expiry", title := "Documento por vencer",
               content := "El documento \"" ++ d.title ++ "\" vencerá el " ++ format_date (now + 10 * seconds_per_day),
               read := false, related_id := some d.id } := by
      unfold notify_document_expiry_row
      rw [hexp]
      simp only []
      rw [if_pos hcond]
    unfold insert_document policy_users_can_manage_their_own_documents
    rw [howner, htype, hstatus]
    simp only [beq_self_eq_true, Bool.and_self, if_true]
    rw [hrow]
    simp only []
    exact insert_notification_err_of_bad_type _ _ _ rfl
  · have hcond : ¬ ((decide (now < now + 40 * seconds_per_day) &&
        decide (now + 40 * seconds_per_day ≤ now + 30 * seconds_per_day)) = true) := by
      simp only [seconds_per_day, Bool.and_eq_true, decide_eq_true_eq]
      omega
    have hrow : notify_document_expiry_row now d = none := by
      unfold notify_document_expiry_row
      rw [hexp]
      simp only []
      rw [if_neg hcond]
    unfold insert_document policy_users_can_manage_their_own_documents
    rw [howner, htype, hstatus]
    simp only [beq_self_eq_true, Bool.and_self, if_true]
    rw [hrow]
  · have hrow : notify_document_expiry_row now d = none := by
      unfold notify_document_expiry_row
      rw [hexp]
    unfold insert_document policy_users_can_manage_their_own_documents
    rw [howner, htype, hstatus]
    simp only [beq_self_eq_true, Bool.and_self, if_true]
    rw [hrow]

/-- Witness for C8: candidate 1 inserting their own driver-license
document expiring in ten days is rejected. -/
theorem document_expiry_trigger_behavior_witness :
    isErr (insert_document 0 { db0 with profiles := [⟨1, "candidato", "Ana", "Diaz"⟩] } 1
      ⟨20, "Carnet", "driver_license", "u", "pending", some 864000, 1⟩) = true :=
  (document_expiry_trigger_behavior 0 _ 1 _ rfl (by decide) (by decide)).1 rfl
